import Mathlib

/-!
# Verification of the FTP control-channel engine (`CFtpControlSocket`)

This file shallowly embeds the reply-accounting, line-parsing, FEAT-parsing,
transfer-coordination and file-transfer decision logic of
`src/engine/ftp/ftpcontrolsocket.cpp` and proves the specified properties
about it.  Machine integers (`int`, `int64_t`) become `Nat`/`Int`; the
relevant member state of `CFtpControlSocket` and its op-data objects becomes
explicit structures; each C++ member function that a claim depends on becomes
an executable Lean function over that state, translated branch by branch.
-/

namespace FtpEngine

/-! ## Engine result codes

Bit flags of the engine's result word (`FZ_REPLY_*`).  The header defining
them is not part of the sources; the values are the engine's conventional
bit assignments, and no proof below depends on the particular numbers, only
on which flags a code contains. -/

def FZ_REPLY_OK : Nat := 0x0000
def FZ_REPLY_WOULDBLOCK : Nat := 0x0001
def FZ_REPLY_ERROR : Nat := 0x0002
def FZ_REPLY_CRITICALERROR : Nat := 0x0004 ||| FZ_REPLY_ERROR
def FZ_REPLY_CANCELED : Nat := 0x0008 ||| FZ_REPLY_ERROR
def FZ_REPLY_SYNTAXERROR : Nat := 0x0010 ||| FZ_REPLY_ERROR
def FZ_REPLY_DISCONNECTED : Nat := 0x0040
def FZ_REPLY_INTERNALERROR : Nat := 0x0080 ||| FZ_REPLY_ERROR
def FZ_REPLY_TIMEOUT : Nat := 0x0800 ||| FZ_REPLY_ERROR
def FZ_REPLY_NOTSUPPORTED : Nat := 0x1000 ||| FZ_REPLY_ERROR
def FZ_REPLY_WRITEFAILED : Nat := 0x2000 ||| FZ_REPLY_ERROR
def FZ_REPLY_CONTINUE : Nat := 0x4000

/-! ## Reply accounting (`m_pendingReplies` / `m_repliesToSkip`)

State and step functions for `CFtpControlSocket::ParseResponse`,
`CFtpControlSocket::SendCommand` and the gate at the top of
`CFtpControlSocket::SendNextCommand`.  The C++ counters are `int`s that the
code never lets drop below zero (the decrements are guarded), so they are
embedded as `Nat` with the same guards. -/

structure FtpCounters where
  pendingReplies : Nat
  repliesToSkip : Nat
  deriving Repr, DecidableEq

/-- What `ParseResponse` did with one received response. -/
inductive ParseOutcome where
  /-- Non-preliminary reply with `m_pendingReplies == 0`: logged
  ("Unexpected reply, no reply was pending.") and dropped. -/
  | droppedNoPending
  /-- `m_repliesToSkip` was nonzero: reply consumed without being fed
  to any operation. -/
  | skipped
  /-- No active operation: reply logged and ignored. -/
  | noActiveOp
  /-- `m_pCurOpData->ParseResponse()` was invoked on this reply. -/
  | fedToOp
  deriving Repr, DecidableEq

/-- `CFtpControlSocket::ParseResponse` (ftpcontrolsocket.cpp:343-402),
restricted to its effect on the two counters and to which consumer sees the
response.  `c` is the first character of `m_Response` (the function returns
early on an empty response, so only nonempty responses reach this logic);
`hasOp` tells whether `m_pCurOpData` is non-null. -/
def parseResponseStep (st : FtpCounters) (hasOp : Bool) (c : Char) :
    FtpCounters × ParseOutcome :=
  if c ≠ '1' then
    if 0 < st.pendingReplies then
      let st := { st with pendingReplies := st.pendingReplies - 1 }
      if 0 < st.repliesToSkip then
        ({ st with repliesToSkip := st.repliesToSkip - 1 }, .skipped)
      else if ¬hasOp then (st, .noActiveOp)
      else (st, .fedToOp)
    else
      (st, .droppedNoPending)
  else
    if 0 < st.repliesToSkip then (st, .skipped)
    else if ¬hasOp then (st, .noActiveOp)
    else (st, .fedToOp)

/-- `CFtpControlSocket::SendCommand` (ftpcontrolsocket.cpp:417-445),
restricted to its effect on `m_pendingReplies`: the counter is incremented
exactly when the send succeeded. -/
def sendCommandStep (st : FtpCounters) (sendOk : Bool) : FtpCounters :=
  if sendOk then { st with pendingReplies := st.pendingReplies + 1 } else st

/-- The counter assignment of `CFtpControlSocket::ResetOperation`
(ftpcontrolsocket.cpp:479): `m_repliesToSkip = m_pendingReplies;`. -/
def resetOperationCounters (st : FtpCounters) : FtpCounters :=
  { st with repliesToSkip := st.pendingReplies }

/-- Outcome of one pass through the guards at the top of the
`SendNextCommand` loop (ftpcontrolsocket.cpp:546-567). -/
inductive SendNextOutcome where
  /-- `m_pCurOpData` is null: warning logged, `ResetOperation(FZ_REPLY_ERROR)`. -/
  | noOp
  /-- `waitForAsyncRequest` set: returns `FZ_REPLY_WOULDBLOCK` without sending. -/
  | waitingAsync
  /-- `m_repliesToSkip` nonzero: returns `FZ_REPLY_WOULDBLOCK` without
  calling the operation's `Send`. -/
  | waitingSkip
  /-- `m_pCurOpData->Send()` is invoked. -/
  | calledSend
  deriving Repr, DecidableEq

/-- The guards of `CFtpControlSocket::SendNextCommand`
(ftpcontrolsocket.cpp:546-567) ahead of the `m_pCurOpData->Send()` call. -/
def sendNextGate (hasOp waitForAsyncRequest : Bool) (st : FtpCounters) :
    SendNextOutcome :=
  if ¬hasOp then .noOp
  else if waitForAsyncRequest then .waitingAsync
  else if 0 < st.repliesToSkip then .waitingSkip
  else .calledSend

/-- One control-channel event as seen by the accounting counters: a command
send attempt (with its success flag) or a received reply, identified by the
first character of the assembled response. -/
inductive FtpEvent where
  | send (ok : Bool)
  | recv (c : Char)
  deriving Repr, DecidableEq

/-- Effect of one event on the counters (an active operation is assumed
present; `ParseOutcome` ignores the counters' evolution). -/
def ftpStep (st : FtpCounters) : FtpEvent → FtpCounters
  | .send ok => sendCommandStep st ok
  | .recv c => (parseResponseStep st true c).1

/-- Process a whole trace of events. -/
def ftpRun (st : FtpCounters) : List FtpEvent → FtpCounters
  | [] => st
  | e :: rest => ftpRun (ftpStep st e) rest

/-- Number of successfully sent commands in a trace. -/
def sentOkCount : List FtpEvent → Nat
  | [] => 0
  | .send true :: rest => sentOkCount rest + 1
  | _ :: rest => sentOkCount rest

/-- Number of received replies whose first character is not `'1'`. -/
def nonPreliminaryCount : List FtpEvent → Nat
  | [] => 0
  | .recv c :: rest =>
      (if c ≠ '1' then 1 else 0) + nonPreliminaryCount rest
  | _ :: rest => nonPreliminaryCount rest

/-- A trace is admissible from `st` when no non-preliminary reply arrives
while `pendingReplies` is zero, i.e. no reply is ever dropped. -/
def admissibleTrace : FtpCounters → List FtpEvent → Bool
  | _, [] => true
  | st, e :: rest =>
    (match e with
     | .recv c => c == '1' || decide (0 < st.pendingReplies)
     | .send _ => true) && admissibleTrace (ftpStep st e) rest

/-- A preliminary reply (first character `'1'`) leaves `pendingReplies`
untouched. -/
theorem parseResponseStep_pending_preliminary (st : FtpCounters) (hasOp : Bool) :
    (parseResponseStep st hasOp '1').1.pendingReplies = st.pendingReplies := by
  unfold parseResponseStep
  simp only [ne_eq, not_true_eq_false, if_false]
  split
  · rfl
  · split <;> rfl

/-- A non-preliminary reply received while `pendingReplies` is positive
decrements it by exactly one. -/
theorem parseResponseStep_pending_decrement (st : FtpCounters) (hasOp : Bool)
    (c : Char) (hc : c ≠ '1') (hp : 0 < st.pendingReplies) :
    (parseResponseStep st hasOp c).1.pendingReplies = st.pendingReplies - 1 := by
  unfold parseResponseStep
  rw [if_pos hc, if_pos hp]
  dsimp only
  split
  · rfl
  · split <;> rfl

/-- A non-preliminary reply received while `pendingReplies` is zero is
dropped: the state is unchanged and no operation sees it. -/
theorem parseResponseStep_dropped (st : FtpCounters) (hasOp : Bool)
    (c : Char) (hc : c ≠ '1') (hp : st.pendingReplies = 0) :
    parseResponseStep st hasOp c = (st, .droppedNoPending) := by
  unfold parseResponseStep
  rw [if_pos hc, if_neg (by omega)]

/-- Conservation law behind reply accounting: along an admissible trace,
`pendingReplies` plus the non-preliminary replies received equals the
starting value plus the commands successfully sent. -/
theorem ftp_trace_accounting (tr : List FtpEvent) (st : FtpCounters)
    (h : admissibleTrace st tr = true) :
    (ftpRun st tr).pendingReplies + nonPreliminaryCount tr =
      st.pendingReplies + sentOkCount tr := by
  induction tr generalizing st with
  | nil => simp [ftpRun, nonPreliminaryCount, sentOkCount]
  | cons e rest ih =>
    simp only [admissibleTrace, Bool.and_eq_true] at h
    obtain ⟨he, hrest⟩ := h
    have ihr := ih (ftpStep st e) hrest
    cases e with
    | send ok =>
      have hstep : (ftpStep st (.send ok)).pendingReplies =
          st.pendingReplies + (if ok then 1 else 0) := by
        cases ok <;> simp [ftpStep, sendCommandStep]
      have hrun : ftpRun st (.send ok :: rest) = ftpRun (ftpStep st (.send ok)) rest := rfl
      rw [hrun]
      cases ok with
      | true =>
        simp only [nonPreliminaryCount, sentOkCount]
        simp only [if_pos] at hstep
        omega
      | false =>
        simp only [nonPreliminaryCount, sentOkCount]
        simp only [if_neg (by simp : ¬ (false = true))] at hstep
        omega
    | recv c =>
      have hrun : ftpRun st (.recv c :: rest) = ftpRun (ftpStep st (.recv c)) rest := rfl
      rw [hrun]
      by_cases hc : c = '1'
      · subst hc
        have hstep : (ftpStep st (.recv '1')).pendingReplies =
            st.pendingReplies := parseResponseStep_pending_preliminary st true
        simp only [nonPreliminaryCount, sentOkCount, ne_eq,
          not_true_eq_false, if_false]
        omega
      · have hp : 0 < st.pendingReplies := by
          rcases Bool.or_eq_true _ _ |>.mp he with h1 | h2
          · exact absurd (by simpa using h1) hc
          · simpa using h2
        have hstep : (ftpStep st (.recv c)).pendingReplies =
            st.pendingReplies - 1 :=
          parseResponseStep_pending_decrement st true c hc hp
        simp only [nonPreliminaryCount, sentOkCount, ne_eq, hc,
          not_false_eq_true, if_true]
        omega

/-- Process a list of received responses (first characters) with an active
operation present, collecting each one's `ParseOutcome`. -/
def runRecvOutcomes (st : FtpCounters) : List Char → FtpCounters × List ParseOutcome
  | [] => (st, [])
  | c :: cs =>
    let next := parseResponseStep st true c
    let rest := runRecvOutcomes next.1 cs
    (rest.1, next.2 :: rest.2)

/-- While `repliesToSkip` is positive (and a reply is pending), a
non-preliminary reply decrements both counters and is consumed without
being fed to the operation. -/
theorem parseResponseStep_skipped (st : FtpCounters) (hasOp : Bool)
    (c : Char) (hc : c ≠ '1') (hp : 0 < st.pendingReplies)
    (hs : 0 < st.repliesToSkip) :
    parseResponseStep st hasOp c =
      ({ pendingReplies := st.pendingReplies - 1,
         repliesToSkip := st.repliesToSkip - 1 }, .skipped) := by
  unfold parseResponseStep
  rw [if_pos hc, if_pos hp]
  dsimp only
  rw [if_pos hs]

/-- Swallowing replies after a reset: as long as the skip counter covers
them, consecutive non-preliminary replies are all consumed without reaching
any operation, decrementing both counters in lockstep. -/
theorem runRecv_skip_all (cs : List Char) (st : FtpCounters)
    (hc : ∀ c ∈ cs, c ≠ '1')
    (hlen : cs.length ≤ st.repliesToSkip)
    (hle : st.repliesToSkip ≤ st.pendingReplies) :
    runRecvOutcomes st cs =
      ({ pendingReplies := st.pendingReplies - cs.length,
         repliesToSkip := st.repliesToSkip - cs.length },
       List.replicate cs.length .skipped) := by
  induction cs generalizing st with
  | nil => simp [runRecvOutcomes]
  | cons c cs ih =>
    have hc0 : c ≠ '1' := hc c (List.mem_cons_self _ _)
    have hlen' : cs.length + 1 ≤ st.repliesToSkip := by simpa using hlen
    have hp : 0 < st.pendingReplies := by omega
    have hs : 0 < st.repliesToSkip := by omega
    have hstep := parseResponseStep_skipped st true c hc0 hp hs
    have ihr := ih { pendingReplies := st.pendingReplies - 1,
                     repliesToSkip := st.repliesToSkip - 1 }
      (fun d hd => hc d (List.mem_cons_of_mem _ hd)) (by simp; omega) (by simp; omega)
    simp only [runRecvOutcomes, hstep, ihr, List.length_cons, List.replicate_succ]
    refine Prod.ext ?_ rfl
    simp only
    congr 1 <;> omega

/-- **C1** Reply accounting.  After any trace of sent commands and received
replies in which no reply arrives with `pendingReplies == 0`,
`pendingReplies` equals the number of successfully sent commands minus the
number of received replies whose first character is not `'1'` (stated
additively over `Nat`, which also embeds that the counter never becomes
negative); a `'1'` reply never decrements the counter; any other reply
decrements it by exactly one while it is positive; and a reply arriving
with `pendingReplies == 0` is logged and dropped without being fed to any
operation. -/
theorem c1_reply_accounting :
    (∀ (tr : List FtpEvent) (st : FtpCounters),
        st.pendingReplies = 0 →
        admissibleTrace st tr = true →
        (ftpRun st tr).pendingReplies + nonPreliminaryCount tr = sentOkCount tr) ∧
    (∀ (st : FtpCounters) (hasOp : Bool),
        (parseResponseStep st hasOp '1').1.pendingReplies = st.pendingReplies) ∧
    (∀ (st : FtpCounters) (hasOp : Bool) (c : Char), c ≠ '1' →
        0 < st.pendingReplies →
        (parseResponseStep st hasOp c).1.pendingReplies = st.pendingReplies - 1) ∧
    (∀ (st : FtpCounters) (hasOp : Bool) (c : Char), c ≠ '1' →
        st.pendingReplies = 0 →
        parseResponseStep st hasOp c = (st, .droppedNoPending)) := by
  refine ⟨?_, parseResponseStep_pending_preliminary,
    parseResponseStep_pending_decrement, parseResponseStep_dropped⟩
  intro tr st h0 hadm
  have h := ftp_trace_accounting tr st hadm
  omega

/-- Concrete instance of `c1_reply_accounting`: two commands sent, one
preliminary and one terminal reply received leaves one reply pending, and a
terminal reply with nothing pending is dropped. -/
theorem c1_reply_accounting_witness :
    (ftpRun ⟨0, 0⟩ [.send true, .send true, .recv '1', .recv '2']).pendingReplies
        + nonPreliminaryCount [.send true, .send true, .recv '1', .recv '2']
      = sentOkCount [.send true, .send true, .recv '1', .recv '2'] ∧
    parseResponseStep ⟨0, 0⟩ true '5' = (⟨0, 0⟩, .droppedNoPending) :=
  ⟨c1_reply_accounting.1 [.send true, .send true, .recv '1', .recv '2'] ⟨0, 0⟩
      rfl (by decide),
   c1_reply_accounting.2.2.2 ⟨0, 0⟩ true '5' (by decide) rfl⟩

/-- **C3** Skip invariant.  `ResetOperation` seeds `repliesToSkip` with
`pendingReplies`; while both counters are positive a non-preliminary reply
decrements `repliesToSkip` and is consumed without being passed to the
operation's `ParseResponse`; `SendNextCommand` never reaches the
operation's `Send` while `repliesToSkip > 0`; and after a reset with `N`
replies outstanding the next `k ≤ N` non-preliminary replies are all
swallowed. -/
theorem c3_skip_invariant :
    (∀ st : FtpCounters,
        (resetOperationCounters st).repliesToSkip = st.pendingReplies) ∧
    (∀ (st : FtpCounters) (hasOp : Bool) (c : Char), c ≠ '1' →
        0 < st.pendingReplies → 0 < st.repliesToSkip →
        parseResponseStep st hasOp c =
          ({ pendingReplies := st.pendingReplies - 1,
             repliesToSkip := st.repliesToSkip - 1 }, .skipped)) ∧
    (∀ (st : FtpCounters) (hasOp waitAsync : Bool), 0 < st.repliesToSkip →
        sendNextGate hasOp waitAsync st ≠ .calledSend) ∧
    (∀ (st : FtpCounters) (cs : List Char), (∀ c ∈ cs, c ≠ '1') →
        cs.length ≤ st.pendingReplies →
        runRecvOutcomes (resetOperationCounters st) cs =
          ({ pendingReplies := st.pendingReplies - cs.length,
             repliesToSkip := st.pendingReplies - cs.length },
           List.replicate cs.length .skipped)) := by
  refine ⟨fun st => rfl, parseResponseStep_skipped, ?_, ?_⟩
  · intro st hasOp waitAsync hs
    unfold sendNextGate
    cases hasOp <;> cases waitAsync <;> simp [hs]
  · intro st cs hc hlen
    exact runRecv_skip_all cs (resetOperationCounters st) hc
      (by simpa [resetOperationCounters] using hlen)
      (by simp [resetOperationCounters])

/-- Concrete instance of `c3_skip_invariant`: a reset with two replies
outstanding swallows the next two terminal replies without feeding an
operation, and blocks `Send` meanwhile. -/
theorem c3_skip_invariant_witness :
    runRecvOutcomes (resetOperationCounters ⟨2, 0⟩) ['2', '5'] =
      (⟨0, 0⟩, [.skipped, .skipped]) ∧
    sendNextGate true false ⟨2, 2⟩ ≠ .calledSend :=
  ⟨c3_skip_invariant.2.2.2 ⟨2, 0⟩ ['2', '5'] (by decide) (by decide),
   c3_skip_invariant.2.2.1 ⟨2, 2⟩ true false (by decide)⟩

/-! ## Line parsing and multi-line responses (`ParseLine` / `GetReplyCode`)

`CFtpControlSocket::ParseLine` (ftpcontrolsocket.cpp:238-297) receives one
charset-converted line at a time; its multi-line logic is driven by
`m_MultilineResponseCode` and `m_MultilineResponseLines`, and hands complete
responses to `ParseResponse` through `m_Response`.  Lines are embedded as
`List Char` (the C++ code works on `std::wstring`). -/

abbrev Line := List Char

structure MultilineState where
  multilineCode : Line
  multilineLines : List Line
  deriving Repr, DecidableEq

/-- The response-assembly part of `CFtpControlSocket::ParseLine`
(ftpcontrolsocket.cpp:270-296): returns the updated multi-line state and
the response handed to `ParseResponse`, if this line completed one. -/
def parseLineResponse (st : MultilineState) (line : Line) :
    MultilineState × Option Line :=
  if 3 < line.length then
    if st.multilineCode ≠ [] then
      if line.take 4 = st.multilineCode then
        (⟨[], []⟩, some line)
      else
        ({ st with multilineLines := st.multilineLines ++ [line] }, none)
    else if line.get? 3 = some '-' then
      (⟨line.take 3 ++ [' '], st.multilineLines ++ [line]⟩, none)
    else
      (st, some line)
  else
    (st, none)

/-- `CFtpControlSocket::GetReplyCode` (ftpcontrolsocket.cpp:404-415). -/
def getReplyCode (response : Line) : Nat :=
  match response with
  | [] => 0
  | c :: _ => if c < '0' ∨ '9' < c then 0 else c.toNat - '0'.toNat

/-- Feed a sequence of lines to `parseLineResponse`, collecting the
responses that get parsed. -/
def runParseLines (st : MultilineState) : List Line → MultilineState × List Line
  | [] => (st, [])
  | l :: ls =>
    let next := parseLineResponse st l
    let rest := runParseLines next.1 ls
    (rest.1, next.2.toList ++ rest.2)

theorem runParseLines_append (st : MultilineState) (xs ys : List Line) :
    runParseLines st (xs ++ ys) =
      ((runParseLines (runParseLines st xs).1 ys).1,
        (runParseLines st xs).2 ++ (runParseLines (runParseLines st xs).1 ys).2) := by
  induction xs generalizing st with
  | nil => simp [runParseLines]
  | cons l ls ih =>
    simp only [List.cons_append, runParseLines, List.append_eq, ih,
      List.append_assoc]

/-- A line of length at most 3 leaves `ParseLine`'s response machinery
completely untouched: no state change and no response. -/
theorem parseLineResponse_short (st : MultilineState) (l : Line)
    (h : l.length ≤ 3) : parseLineResponse st l = (st, none) := by
  unfold parseLineResponse
  rw [if_neg (by omega)]

/-- Inside an open multi-line response, a long line that does not start
with the closing prefix is buffered and produces no response. -/
theorem parseLineResponse_buffer (st : MultilineState) (l : Line)
    (hne : st.multilineCode ≠ []) (h3 : 3 < l.length)
    (hl : l.take 4 ≠ st.multilineCode) :
    parseLineResponse st l =
      ({ st with multilineLines := st.multilineLines ++ [l] }, none) := by
  unfold parseLineResponse
  rw [if_pos h3, if_pos hne, if_neg hl]

/-- Inside an open multi-line response, the first line starting with the
closing prefix ends it: the state is cleared and the line becomes the
response. -/
theorem parseLineResponse_close (st : MultilineState) (l : Line)
    (hne : st.multilineCode ≠ []) (h3 : 3 < l.length)
    (hl : l.take 4 = st.multilineCode) :
    parseLineResponse st l = (⟨[], []⟩, some l) := by
  unfold parseLineResponse
  rw [if_pos h3, if_pos hne, if_pos hl]

/-- While no line matching the closing prefix arrives, an open multi-line
response buffers exactly the lines longer than 3 characters and parses no
response. -/
theorem runParseLines_buffering (pre : List Line) (code : Line)
    (acc : List Line) (hcode : code ≠ [])
    (hpre : ∀ l ∈ pre, l.take 4 ≠ code) :
    runParseLines ⟨code, acc⟩ pre =
      (⟨code, acc ++ pre.filter (fun l => decide (3 < l.length))⟩, []) := by
  induction pre generalizing acc with
  | nil => simp [runParseLines]
  | cons l ls ih =>
    have hl := hpre l (List.mem_cons_self _ _)
    have hrest : ∀ x ∈ ls, x.take 4 ≠ code :=
      fun x hx => hpre x (List.mem_cons_of_mem _ hx)
    by_cases h3 : 3 < l.length
    · have hstep := parseLineResponse_buffer ⟨code, acc⟩ l hcode h3 hl
      simp only [runParseLines, hstep, Option.toList_none, List.nil_append]
      rw [ih (acc ++ [l]) hrest]
      simp [List.filter_cons, h3]
    · have hstep := parseLineResponse_short ⟨code, acc⟩ l (by omega)
      simp only [runParseLines, hstep, Option.toList_none, List.nil_append]
      rw [ih acc hrest]
      simp [List.filter_cons, h3]

/-- **C2, counterexample.**  A multi-line reply opened by `"123-a"` does
not buffer a subsequent line of length at most 3: after `"123-a"` and
`"ab"` the buffered lines are just `["123-a"]`, while the claim asserts
every subsequent line is buffered. -/
theorem c2_short_line_not_buffered :
    (runParseLines ⟨[], []⟩ [['1', '2', '3', '-', 'a'], ['a', 'b']]).1 =
      ⟨['1', '2', '3', ' '], [['1', '2', '3', '-', 'a']]⟩ ∧
    ['a', 'b'] ∉
      (runParseLines ⟨[], []⟩ [['1', '2', '3', '-', 'a'], ['a', 'b']]).1.multilineLines := by
  decide

/-- **C2 (amended).**  A reply opened by a line whose 4th byte is `'-'`
buffers every subsequent line of length greater than 3 (lines of length at
most 3 are ignored) and closes exactly on the first later line whose first
four bytes are the same three characters followed by a space, regardless of
intervening lines; only that closing line becomes the response that is
parsed, and its reply code is the value of its first character when that is
a digit and 0 otherwise. -/
theorem c2_multiline_closure (o closer : Line) (pre : List Line)
    (hlen : 3 < o.length) (hdash : o.get? 3 = some '-')
    (hpre : ∀ l ∈ pre, l.take 4 ≠ o.take 3 ++ [' '])
    (hclose : closer.take 4 = o.take 3 ++ [' ']) :
    runParseLines ⟨[], []⟩ (o :: pre) =
      (⟨o.take 3 ++ [' '],
        o :: pre.filter (fun l => decide (3 < l.length))⟩, []) ∧
    runParseLines ⟨[], []⟩ (o :: (pre ++ [closer])) = (⟨[], []⟩, [closer]) ∧
    (∀ (c : Char) (r : Line), closer = c :: r →
      getReplyCode closer =
        if '0' ≤ c ∧ c ≤ '9' then c.toNat - '0'.toNat else 0) := by
  have hcodelen : (o.take 3 ++ [' '] : Line).length = 4 := by
    simp [List.length_take]
    omega
  have hcodene : (o.take 3 ++ [' '] : Line) ≠ [] := by
    intro h
    have := congrArg List.length h
    simp [hcodelen] at this
  have hopen : parseLineResponse ⟨[], []⟩ o =
      (⟨o.take 3 ++ [' '], [o]⟩, none) := by
    unfold parseLineResponse
    rw [if_pos hlen, if_neg (by simp), if_pos hdash]
    simp
  have hcloselen : 3 < closer.length := by
    have := congrArg List.length hclose
    simp only [List.length_take, hcodelen] at this
    omega
  have h1 : runParseLines ⟨[], []⟩ (o :: pre) =
      (⟨o.take 3 ++ [' '],
        o :: pre.filter (fun l => decide (3 < l.length))⟩, []) := by
    simp only [runParseLines, hopen, Option.toList_none, List.nil_append]
    rw [runParseLines_buffering pre (o.take 3 ++ [' ']) [o] hcodene hpre]
    simp
  refine ⟨h1, ?_, ?_⟩
  · have : (o :: (pre ++ [closer])) = (o :: pre) ++ [closer] := by simp
    rw [this, runParseLines_append, h1]
    have hcl := parseLineResponse_close
      ⟨o.take 3 ++ [' '], o :: pre.filter (fun l => decide (3 < l.length))⟩
      closer hcodene hcloselen hclose
    simp [runParseLines, hcl]
  · intro c r hcr
    subst hcr
    simp only [getReplyCode]
    by_cases h : '0' ≤ c ∧ c ≤ '9'
    · have hno : ¬ (c < '0' ∨ '9' < c) := by
        push_neg
        exact ⟨h.1, h.2⟩
      rw [if_neg hno, if_pos h]
    · have hyes : c < '0' ∨ '9' < c := by
        rcases not_and_or.mp h with h1 | h2
        · exact Or.inl (lt_of_not_le h1)
        · exact Or.inr (lt_of_not_le h2)
      rw [if_pos hyes, if_neg h]

/-- Concrete instance of `c2_multiline_closure`: the reply
`211- … 456_ … 211_` closes on `"211 "` despite the intervening line
starting with another three-digit sequence, and only the closing line is
parsed. -/
theorem c2_multiline_closure_witness :
    runParseLines ⟨[], []⟩
        [['2', '1', '1', '-'], ['4', '5', '6', ' '], ['2', '1', '1', ' ']] =
      (⟨[], []⟩, [['2', '1', '1', ' ']]) :=
  (c2_multiline_closure ['2', '1', '1', '-'] ['2', '1', '1', ' ']
    [['4', '5', '6', ' ']] (by decide) (by decide) (by decide) (by decide)).2.1

/-- **C9, counterexample.**  The line `"200"` (length 3) is not processed
as a response: `ParseLine` ignores it entirely, while the claim asserts it
constitutes a complete single-line reply that is parsed with code 2. -/
theorem c9_short_line_ignored_counterexample :
    parseLineResponse ⟨[], []⟩ ['2', '0', '0'] = (⟨[], []⟩, none) ∧
    (runParseLines ⟨[], []⟩ [['2', '0', '0']]).2 = [] := by
  decide

/-- **C9 (amended).**  Every received line of length at most 3 is ignored
by the response machinery — it is not processed as a response and leaves
the multi-line state unchanged — whereas a longer line whose 4th byte is a
space (outside a multi-line response) is processed as a single-line
response. -/
theorem c9_short_lines_ignored :
    (∀ (st : MultilineState) (l : Line), l.length ≤ 3 →
        parseLineResponse st l = (st, none)) ∧
    (∀ (st : MultilineState) (l : Line), st.multilineCode = [] →
        3 < l.length → l.get? 3 = some ' ' →
        parseLineResponse st l = (st, some l)) := by
  refine ⟨parseLineResponse_short, ?_⟩
  intro st l hcode h3 hsp
  unfold parseLineResponse
  rw [if_pos h3, if_neg (by simp [hcode]),
    if_neg (by rw [hsp]; simp)]

/-- Concrete instance of `c9_short_lines_ignored`: `"200"` is dropped while
`"200 ok"`-style lines are parsed. -/
theorem c9_short_lines_ignored_witness :
    parseLineResponse ⟨[], []⟩ ['5', '0', '0'] = (⟨[], []⟩, none) ∧
    parseLineResponse ⟨[], []⟩ ['2', '0', '0', ' ', 'o'] =
      (⟨[], []⟩, some ['2', '0', '0', ' ', 'o']) :=
  ⟨c9_short_lines_ignored.1 ⟨[], []⟩ ['5', '0', '0'] (by decide),
   c9_short_lines_ignored.2 ⟨[], []⟩ ['2', '0', '0', ' ', 'o'] rfl
     (by decide) rfl⟩

/-! ## Raw transfer: transfer-end / control-reply race

States of `CFtpRawTransferOpData` (rawtransfer.h, as used by
`CFtpControlSocket::TransferEnd`, ftpcontrolsocket.cpp:1167-1210) and the
data-channel end reasons. -/

inductive RawTransferState where
  | rt_type | rt_port_pasv | rt_rest | transfer | waitfinish
  | waittransfer | waittransferpre | waitsocket
  deriving Repr, DecidableEq

inductive TransferEndReason where
  | none_ | successful | timeout | transfer_command_failure
  | transfer_command_failure_immediate | transfer_failure
  | transfer_failure_critical | pre_transfer_command_failure
  | failed_resumetest | failure
  deriving Repr, DecidableEq

/-- The raw-transfer frame as `TransferEnd` touches it: its state machine
value, the owning transfer op's `transferEndReason`
(`pData->pOldData->transferEndReason`), and whether the data socket has
already delivered its end event (in the C++ this is implicit in the
transfer socket's lifecycle). -/
structure RawTransferOp where
  opState : RawTransferState
  oldDataReason : TransferEndReason
  dataEnded : Bool
  deriving Repr, DecidableEq

inductive TransferEvtOutcome where
  /-- Event logged and discarded ("Call to TransferEnd at unusual time"). -/
  | ignored
  /-- Frame mutated; the operation continues. -/
  | updated
  /-- `ResetOperation(result)` was invoked: the op pops with `result`. -/
  | opEnded (result : Nat)
  deriving Repr, DecidableEq

/-- `CFtpControlSocket::TransferEnd` (ftpcontrolsocket.cpp:1167-1210).
`hasOp`, `hasTransferSocket` and `curRawtransfer` are the null/command
checks at the top of the function. -/
def transferEnd (op : RawTransferOp)
    (hasOp hasTransferSocket curRawtransfer : Bool)
    (reason : TransferEndReason) : RawTransferOp × TransferEvtOutcome :=
  if ¬hasOp ∨ ¬hasTransferSocket ∨ ¬curRawtransfer then (op, .ignored)
  else if reason = .none_ then (op, .ignored)
  else
    let op := { op with
      dataEnded := true,
      oldDataReason :=
        if op.oldDataReason = TransferEndReason.successful then reason
        else op.oldDataReason }
    match op.opState with
    | .transfer => ({ op with opState := .waittransferpre }, .updated)
    | .waitfinish => ({ op with opState := .waittransfer }, .updated)
    | .waitsocket =>
        (op, .opEnded (if reason = TransferEndReason.successful then FZ_REPLY_OK
          else FZ_REPLY_ERROR))
    | _ => (op, .ignored)

/-- Modelled from the spec: the control-reply side of the raw-transfer
operation (`CFtpRawTransferOpData::ParseResponse` in rawtransfer.cpp) is
not among the sources.  Spec §4.5: after the transfer command, a
preliminary `1xx` is "treated as expected and merely logged"; the final
control reply and the data-socket end race, and "when both have occurred,
state → waitsocket → terminate"; a `4xx`/`5xx` final reply fails the
transfer. -/
def rawTransferReply (op : RawTransferOp) (code : Nat) :
    RawTransferOp × TransferEvtOutcome :=
  match op.opState with
  | .transfer | .waitfinish | .waittransfer | .waittransferpre =>
    if code = 1 then (op, .updated)
    else if code = 2 ∨ code = 3 then
      ({ op with opState := .waitsocket }, .updated)
    else (op, .opEnded FZ_REPLY_ERROR)
  | _ => (op, .ignored)

/-- Modelled from the spec: once in `waitsocket` the op terminates as soon
as the data socket has ended ("state → waitsocket → terminate"), with the
result determined by the recorded transfer-end reason. -/
def rawTransferFinish (op : RawTransferOp) : TransferEvtOutcome :=
  if op.opState = .waitsocket ∧ op.dataEnded then
    .opEnded (if op.oldDataReason = .successful then FZ_REPLY_OK else FZ_REPLY_ERROR)
  else .updated

/-- **C4** Transfer-end / control-reply race.  A `transfer_end` event in
state `transfer` moves the raw-transfer op to `waittransferpre`; in state
`waitfinish` it moves it to `waittransfer`; and in the 150 / data-end / 226
scenario (S2) the op passes through
`transfer → waittransferpre → waitsocket` and completes with `FZ_REPLY_OK`. -/
theorem c4_transfer_end_race :
    (∀ (op : RawTransferOp) (r : TransferEndReason), r ≠ .none_ →
        op.opState = .transfer →
        (transferEnd op true true true r).1.opState = .waittransferpre) ∧
    (∀ (op : RawTransferOp) (r : TransferEndReason), r ≠ .none_ →
        op.opState = .waitfinish →
        (transferEnd op true true true r).1.opState = .waittransfer) ∧
    ((rawTransferReply ⟨.transfer, .successful, false⟩ 1).1 =
        ⟨.transfer, .successful, false⟩ ∧
     (transferEnd ⟨.transfer, .successful, false⟩ true true true .successful).1 =
        ⟨.waittransferpre, .successful, true⟩ ∧
     (rawTransferReply ⟨.waittransferpre, .successful, true⟩ 2).1 =
        ⟨.waitsocket, .successful, true⟩ ∧
     rawTransferFinish ⟨.waitsocket, .successful, true⟩ =
        .opEnded FZ_REPLY_OK) := by
  refine ⟨?_, ?_, rfl, rfl, rfl, rfl⟩
  · intro op r hr hstate
    obtain ⟨s, oldR, dEnded⟩ := op
    simp only at hstate
    subst hstate
    simp [transferEnd, hr]
  · intro op r hr hstate
    obtain ⟨s, oldR, dEnded⟩ := op
    simp only at hstate
    subst hstate
    simp [transferEnd, hr]

/-- Concrete instance of `c4_transfer_end_race`: a successful data-socket
end in state `transfer` moves to `waittransferpre`, and one in state
`waitfinish` moves to `waittransfer`. -/
theorem c4_transfer_end_race_witness :
    (transferEnd ⟨.transfer, .successful, false⟩ true true true
        .successful).1.opState = .waittransferpre ∧
    (transferEnd ⟨.waitfinish, .successful, false⟩ true true true
        .failure).1.opState = .waittransfer :=
  ⟨c4_transfer_end_race.1 ⟨.transfer, .successful, false⟩ .successful
      (by decide) rfl,
   c4_transfer_end_race.2.1 ⟨.waitfinish, .successful, false⟩ .failure
      (by decide) rfl⟩

/-! ## File transfer: resume-bug probe

`CFtpControlSocket::FileTransferTestResumeCapability`
(ftpcontrolsocket.cpp:1956-2014) and the `filetransfer_waitresumetest`
branch of `CFtpControlSocket::FileTransferSubcommandResult`
(ftpcontrolsocket.cpp:908-936).  File sizes are `int64_t`, embedded as
`Int`. -/

inductive CapState where
  | yes | no | unknown
  deriving Repr, DecidableEq

inductive CapKind where
  | resume4GBbug | resume2GBbug
  deriving Repr, DecidableEq

inductive ResumeTestAction where
  /-- Fall through: `FZ_REPLY_OK` returned, the real transfer proceeds. -/
  | proceed
  /-- File sizes match: `ResetOperation(FZ_REPLY_OK)` and `FZ_REPLY_CANCELED`
  returned, which `FileTransferSend` turns into a successful no-op. -/
  | successNoop
  /-- `ResetOperation(FZ_REPLY_CRITICALERROR)`, `FZ_REPLY_ERROR` returned. -/
  | criticalError
  /-- `opState := filetransfer_waitresumetest`, resume offset set, and a
  `RETR` raw-transfer sub-operation pushed. -/
  | startTest (resumeOffset : Int)
  deriving Repr, DecidableEq

/-- One arm of the `switch` inside the loop of
`FileTransferTestResumeCapability`, for the capability of the current loop
iteration; `none` is the `break` that falls through to the next iteration. -/
def resumeTestCheck (cap : CapState) (localFileSize remoteFileSize : Int) :
    Option ResumeTestAction :=
  match cap with
  | .yes =>
      if remoteFileSize = localFileSize then some .successNoop
      else some .criticalError
  | .unknown =>
      if remoteFileSize < localFileSize then none
      else if remoteFileSize = localFileSize then some .successNoop
      else some (.startTest (remoteFileSize - 1))
  | .no => none

/-- `CFtpControlSocket::FileTransferTestResumeCapability`
(ftpcontrolsocket.cpp:1956-2014): uploads pass through; the loop tries
`i = 0` (threshold `1 << 32`, `resume4GBbug`) and then `i = 1`
(threshold `1 << 31`, `resume2GBbug`). -/
def fileTransferTestResumeCapability (download : Bool)
    (localFileSize remoteFileSize : Int) (cap4 cap2 : CapState) :
    ResumeTestAction :=
  if ¬download then .proceed
  else
    match (if (2 ^ 32 : Int) ≤ localFileSize then
        resumeTestCheck cap4 localFileSize remoteFileSize else none) with
    | some a => a
    | none =>
      match (if (2 ^ 31 : Int) ≤ localFileSize then
          resumeTestCheck cap2 localFileSize remoteFileSize else none) with
      | some a => a
      | none => .proceed

structure ResumeTestResult where
  /-- `CServerCapabilities::SetCapability` call performed, if any. -/
  capSet : Option (CapKind × CapState)
  /-- Argument of the `ResetOperation` call, if the operation ended here. -/
  errorCode : Option Nat
  /-- Whether `opState` advanced to `filetransfer_transfer`. -/
  nextIsTransfer : Bool
  deriving Repr, DecidableEq

/-- The `filetransfer_waitresumetest` branch of
`CFtpControlSocket::FileTransferSubcommandResult`
(ftpcontrolsocket.cpp:908-936). -/
def fileTransferResumeTestResult (prevResult : Nat)
    (endReason : TransferEndReason) (localFileSize : Int) : ResumeTestResult :=
  if prevResult ≠ FZ_REPLY_OK then
    if endReason = .failed_resumetest then
      { capSet := some (if (2 ^ 32 : Int) < localFileSize
          then (.resume4GBbug, .yes) else (.resume2GBbug, .yes)),
        errorCode := some (prevResult ||| FZ_REPLY_CRITICALERROR),
        nextIsTransfer := false }
    else
      { capSet := none, errorCode := some prevResult, nextIsTransfer := false }
  else
    { capSet := some (if (2 ^ 32 : Int) < localFileSize
        then (.resume4GBbug, .no) else (.resume2GBbug, .no)),
      errorCode := none, nextIsTransfer := true }

/-- **C5** Resume-bug probe.  For a resumed download with local size over
the 4 GiB (resp. 2 GiB) limit, matching bug capability `unknown` and remote
size greater than local size, a resume-test `RETR` sub-transfer from
`remote_size - 1` is started; a successful sub-transfer sets the capability
to `no` and proceeds with the real transfer; a failure with end reason
`failed_resumetest` sets it to `yes` and fails the whole transfer with
`FZ_REPLY_CRITICALERROR`; and with capability `yes` or `unknown` and equal
sizes the operation ends successfully without any transfer. -/
theorem c5_resume_bug_probe :
    (∀ (localSize remoteSize : Int) (cap2 : CapState),
        (2 ^ 32 : Int) < localSize → localSize < remoteSize →
        fileTransferTestResumeCapability true localSize remoteSize .unknown cap2 =
          .startTest (remoteSize - 1)) ∧
    (∀ (localSize remoteSize : Int) (cap4 : CapState),
        (2 ^ 31 : Int) < localSize → localSize < (2 ^ 32 : Int) →
        localSize < remoteSize →
        fileTransferTestResumeCapability true localSize remoteSize cap4 .unknown =
          .startTest (remoteSize - 1)) ∧
    (∀ (endReason : TransferEndReason) (localSize : Int),
        fileTransferResumeTestResult FZ_REPLY_OK endReason localSize =
          { capSet := some (if (2 ^ 32 : Int) < localSize
              then (.resume4GBbug, .no) else (.resume2GBbug, .no)),
            errorCode := none, nextIsTransfer := true }) ∧
    (∀ (prev : Nat) (localSize : Int), prev ≠ FZ_REPLY_OK →
        fileTransferResumeTestResult prev .failed_resumetest localSize =
          { capSet := some (if (2 ^ 32 : Int) < localSize
              then (.resume4GBbug, .yes) else (.resume2GBbug, .yes)),
            errorCode := some (prev ||| FZ_REPLY_CRITICALERROR),
            nextIsTransfer := false }) ∧
    (∀ (localSize : Int) (cap : CapState) (cap2 : CapState),
        cap = .yes ∨ cap = .unknown → (2 ^ 32 : Int) ≤ localSize →
        fileTransferTestResumeCapability true localSize localSize cap cap2 =
          .successNoop) ∧
    (∀ (localSize : Int) (cap4 cap : CapState),
        cap = .yes ∨ cap = .unknown →
        (2 ^ 31 : Int) ≤ localSize → localSize < (2 ^ 32 : Int) →
        fileTransferTestResumeCapability true localSize localSize cap4 cap =
          .successNoop) := by
  refine ⟨?_, ?_, ?_, ?_, ?_, ?_⟩
  · intro l r cap2 h4 hlr
    norm_num at h4
    have ha : (4294967296 : Int) ≤ l := le_of_lt h4
    have hb : ¬ (r < l) := by omega
    have hc : ¬ (r = l) := by omega
    simp [fileTransferTestResumeCapability, resumeTestCheck, ha, hb, hc]
  · intro l r cap4 h2 h4 hlr
    norm_num at h2 h4
    have ha : ¬ ((4294967296 : Int) ≤ l) := by omega
    have ha' : (2147483648 : Int) ≤ l := le_of_lt h2
    have hb : ¬ (r < l) := by omega
    have hc : ¬ (r = l) := by omega
    simp [fileTransferTestResumeCapability, resumeTestCheck, ha, ha', hb, hc]
  · intro endReason l
    unfold fileTransferResumeTestResult
    rw [if_neg (by simp)]
  · intro prev l hprev
    unfold fileTransferResumeTestResult
    rw [if_pos hprev, if_pos rfl]
  · intro l cap cap2 hcap h4
    norm_num at h4
    rcases hcap with h | h <;> subst h <;>
      simp [fileTransferTestResumeCapability, resumeTestCheck, h4]
  · intro l cap4 cap hcap h2 h4
    norm_num at h2 h4
    have ha : ¬ ((4294967296 : Int) ≤ l) := by omega
    rcases hcap with h | h <;> subst h <;>
      simp [fileTransferTestResumeCapability, resumeTestCheck, ha, h2]

/-- Concrete instance of `c5_resume_bug_probe`: a 5 GiB local file with
`resume4gb_bug` unknown and a larger remote file starts the probe from
`remote_size - 1`, and a failed probe sets the bug flag with a critical
error. -/
theorem c5_resume_bug_probe_witness :
    fileTransferTestResumeCapability true 5368709120 5368709220 .unknown .unknown =
      .startTest 5368709219 ∧
    fileTransferResumeTestResult FZ_REPLY_ERROR .failed_resumetest 5368709120 =
      { capSet := some (if (2 ^ 32 : Int) < 5368709120
          then (.resume4GBbug, .yes) else (.resume2GBbug, .yes)),
        errorCode := some (FZ_REPLY_ERROR ||| FZ_REPLY_CRITICALERROR),
        nextIsTransfer := false } :=
  ⟨c5_resume_bug_probe.1 5368709120 5368709220 .unknown (by norm_num) (by norm_num),
   c5_resume_bug_probe.2.2.2.1 FZ_REPLY_ERROR 5368709120 (by decide)⟩

/-! ## File transfer: upload send decision

The upload path of the `filetransfer_transfer` / `filetransfer_resumetest`
branch of `CFtpControlSocket::FileTransferSend`
(ftpcontrolsocket.cpp:1043-1141), modelled from the point where the local
file has been opened for reading. -/

inductive UploadSendAction where
  /-- Sizes match in binary mode: `ResetOperation(FZ_REPLY_OK)`, no
  transfer command issued. -/
  | noopOk
  /-- Sizes match, timestamps preserved, `MFMT` advertised:
  `opState := filetransfer_mfmt` and `SendNextCommand()` (the MFMT step
  runs before the operation finishes with OK). -/
  | mfmtFirst
  /-- `pFile->seek` to the resume offset failed: `ResetOperation(FZ_REPLY_ERROR)`. -/
  | seekError
  /-- A data-initiating command is pushed via `Transfer(cmd, pData)`. -/
  | transferCmd (cmd : String) (resumeOffset : Int)
  deriving Repr, DecidableEq

/-- Upload decision logic of `FileTransferSend`.  `localFileSizeIn` is
`pData->localFileSize` (negative when unknown), `actualFileSize` is what
`pFile->size()` reports, `mtimeKnown` is whether
`fz::local_filesys::get_modification_time` returned a non-empty time and
`seekOk` abstracts the `pFile->seek(startOffset, begin)` result. -/
def fileTransferUploadSend (resume binary : Bool)
    (remoteFileSize localFileSizeIn actualFileSize : Int)
    (preserveTimestamps : Bool) (mfmtCap restStreamCap : CapState)
    (mtimeKnown seekOk : Bool) : UploadSendAction :=
  let localFileSize :=
    if resume ∧ 0 < remoteFileSize ∧ localFileSizeIn < 0 ∧ 0 ≤ actualFileSize
    then actualFileSize else localFileSizeIn
  let startOffset := if resume ∧ 0 < remoteFileSize then remoteFileSize else 0
  if resume ∧ 0 < remoteFileSize ∧ startOffset = localFileSize ∧ binary then
    if preserveTimestamps ∧ mfmtCap = CapState.yes ∧ mtimeKnown then .mfmtFirst
    else .noopOk
  else if resume ∧ 0 < remoteFileSize ∧ ¬seekOk then .seekError
  else
    .transferCmd
      (if resume then (if restStreamCap = CapState.yes then "STOR" else "APPE")
       else "STOR")
      (if restStreamCap = CapState.yes then startOffset else 0)

/-- **C6** Upload resume no-op.  For a resumed upload in binary mode whose
positive remote file size equals the (possibly refreshed) local file size,
no data transfer is initiated — no `STOR`/`APPE` is pushed — and the
operation finishes with OK, except that a single `MFMT` step comes first
exactly when preserve-timestamps is enabled, the server's `mfmt_command`
capability is `yes` and the local modification time is available. -/
theorem c6_upload_resume_noop
    (remoteSize localSizeIn actualSize : Int) (pt : Bool)
    (mfmtCap rest : CapState) (mtimeKnown seekOk : Bool)
    (hpos : 0 < remoteSize)
    (heq : remoteSize =
      if localSizeIn < 0 ∧ 0 ≤ actualSize then actualSize else localSizeIn) :
    fileTransferUploadSend true true remoteSize localSizeIn actualSize
        pt mfmtCap rest mtimeKnown seekOk =
      (if pt ∧ mfmtCap = CapState.yes ∧ mtimeKnown then .mfmtFirst else .noopOk) ∧
    ∀ (cmd : String) (off : Int),
      fileTransferUploadSend true true remoteSize localSizeIn actualSize
          pt mfmtCap rest mtimeKnown seekOk ≠ .transferCmd cmd off := by
  have hmain : fileTransferUploadSend true true remoteSize localSizeIn actualSize
      pt mfmtCap rest mtimeKnown seekOk =
      (if pt ∧ mfmtCap = CapState.yes ∧ mtimeKnown then .mfmtFirst else .noopOk) := by
    by_cases hl : localSizeIn < 0 ∧ 0 ≤ actualSize
    · rw [if_pos hl] at heq
      have hpos' : 0 < actualSize := heq ▸ hpos
      simp [fileTransferUploadSend, hpos, hpos', hl.1, hl.2, heq]
    · rw [if_neg hl] at heq
      have hpos' : 0 < localSizeIn := heq ▸ hpos
      have hnneg : ¬ localSizeIn < 0 := by omega
      simp [fileTransferUploadSend, hpos, hpos', hnneg, heq]
  refine ⟨hmain, fun cmd off => ?_⟩
  rw [hmain]
  split <;> simp

/-- Concrete instance of `c6_upload_resume_noop`: remote and local sizes
both 100 bytes, binary resume — no transfer command; with timestamps
preserved and `MFMT` advertised, the MFMT step runs first. -/
theorem c6_upload_resume_noop_witness :
    fileTransferUploadSend true true 100 100 0 false .unknown .yes false true =
      .noopOk ∧
    fileTransferUploadSend true true 100 100 0 true .yes .yes true true =
      .mfmtFirst :=
  ⟨by
    have h := (c6_upload_resume_noop 100 100 0 false .unknown .yes false true
      (by norm_num) (by norm_num)).1
    simpa using h,
   by
    have h := (c6_upload_resume_noop 100 100 0 true .yes .yes true true
      (by norm_num) (by norm_num)).1
    simpa using h⟩

/-! ## `ResetOperation`: transfer cleanup and empty-file deletion

The `Command::transfer` branch of `CFtpControlSocket::ResetOperation`
(ftpcontrolsocket.cpp:481-509). -/

inductive LocalFileInfo where
  /-- `fz::local_filesys::get_file_info` reported a regular file of this size. -/
  | file (size : Int)
  | dir
  | notFound
  deriving Repr, DecidableEq

/-- The fields of `CFtpFileTransferOpData` and the engine that the
`Command::transfer` branch of `ResetOperation` reads (`tranferCommandSent`
keeps the source's spelling).  `replyCode` is `GetReplyCode()` at reset
time; `localFileInfo` is what the local file system reports for
`pData->localFile` now. -/
structure TransferResetInput where
  tranferCommandSent : Bool
  transferEndReason : TransferEndReason
  download : Bool
  fileDidExist : Bool
  replyCode : Nat
  localFileInfo : LocalFileInfo
  deriving Repr, DecidableEq

structure TransferResetOutcome where
  errorCode : Nat
  transferInitiated : Bool
  /-- Whether `fz::remove_file` was called on the local file. -/
  deletedEmptyFile : Bool
  deriving Repr, DecidableEq

/-- Error-code adjustment of ftpcontrolsocket.cpp:483-494. -/
def adjustTransferErrorCode (nErrorCodeIn : Nat) (inp : TransferResetInput) : Nat :=
  if inp.tranferCommandSent then
    let c := if inp.transferEndReason = .transfer_failure_critical
      then nErrorCodeIn ||| FZ_REPLY_CRITICALERROR ||| FZ_REPLY_WRITEFAILED
      else nErrorCodeIn
    if inp.transferEndReason ≠ .transfer_command_failure_immediate ∨
        inp.replyCode ≠ 5 then c
    else if c = FZ_REPLY_ERROR then c ||| FZ_REPLY_CRITICALERROR else c
  else nErrorCodeIn

/-- `pData->transferInitiated` after ftpcontrolsocket.cpp:487-489. -/
def transferInitiatedAfter (inp : TransferResetInput) (prev : Bool) : Bool :=
  if inp.tranferCommandSent ∧
      (inp.transferEndReason ≠ .transfer_command_failure_immediate ∨
        inp.replyCode ≠ 5)
  then true else prev

/-- The `Command::transfer` branch of `CFtpControlSocket::ResetOperation`
(ftpcontrolsocket.cpp:481-509): adjusted error code, `transferInitiated`
flag, and whether the still-empty freshly-created download target was
removed (lines 496-508). -/
def resetOperationTransfer (nErrorCodeIn : Nat) (inp : TransferResetInput)
    (prevTransferInitiated : Bool) : TransferResetOutcome :=
  let code := adjustTransferErrorCode nErrorCodeIn inp
  { errorCode := code,
    transferInitiated := transferInitiatedAfter inp prevTransferInitiated,
    deletedEmptyFile :=
      decide (code ≠ FZ_REPLY_OK) && inp.download && !inp.fileDidExist &&
        decide (inp.localFileInfo = LocalFileInfo.file 0) }

/-- **C7** Empty-file cleanup.  The local file is deleted exactly when the
transfer ends with a non-OK code, is a download, the file did not exist
before the transfer, and it now exists as a regular file of size 0; in
particular a pre-existing file or one of non-zero size is never deleted. -/
theorem c7_empty_file_cleanup :
    (∀ (nErr : Nat) (inp : TransferResetInput) (ti : Bool),
        (resetOperationTransfer nErr inp ti).deletedEmptyFile = true ↔
          ((resetOperationTransfer nErr inp ti).errorCode ≠ FZ_REPLY_OK ∧
            inp.download = true ∧ inp.fileDidExist = false ∧
            inp.localFileInfo = LocalFileInfo.file 0)) ∧
    (∀ (nErr : Nat) (inp : TransferResetInput) (ti : Bool),
        inp.fileDidExist = true →
        (resetOperationTransfer nErr inp ti).deletedEmptyFile = false) ∧
    (∀ (nErr : Nat) (inp : TransferResetInput) (ti : Bool) (s : Int),
        inp.localFileInfo = LocalFileInfo.file s → s ≠ 0 →
        (resetOperationTransfer nErr inp ti).deletedEmptyFile = false) := by
  refine ⟨?_, ?_, ?_⟩
  · intro nErr inp ti
    simp [resetOperationTransfer, Bool.and_eq_true, decide_eq_true_eq,
      Bool.not_eq_true', and_assoc]
  · intro nErr inp ti h
    simp [resetOperationTransfer, h]
  · intro nErr inp ti s hinfo hs
    have : inp.localFileInfo ≠ LocalFileInfo.file 0 := by
      rw [hinfo]
      intro hcontra
      exact hs (by injection hcontra)
    simp [resetOperationTransfer, this]

/-- Concrete instance of `c7_empty_file_cleanup`: a failed download that
created a new empty file deletes it via the iff; a pre-existing file and a
non-empty file are kept. -/
theorem c7_empty_file_cleanup_witness :
    (resetOperationTransfer FZ_REPLY_ERROR
        ⟨true, .failure, true, false, 4, .file 0⟩ false).deletedEmptyFile = true ∧
    (resetOperationTransfer FZ_REPLY_ERROR
        ⟨true, .failure, true, true, 4, .file 0⟩ false).deletedEmptyFile = false ∧
    (resetOperationTransfer FZ_REPLY_ERROR
        ⟨true, .failure, true, false, 4, .file 7⟩ false).deletedEmptyFile = false :=
  ⟨(c7_empty_file_cleanup.1 FZ_REPLY_ERROR
      ⟨true, .failure, true, false, 4, .file 0⟩ false).mpr
      ⟨by decide, rfl, rfl, rfl⟩,
   c7_empty_file_cleanup.2.1 FZ_REPLY_ERROR
      ⟨true, .failure, true, true, 4, .file 0⟩ false rfl,
   c7_empty_file_cleanup.2.2 FZ_REPLY_ERROR
      ⟨true, .failure, true, false, 4, .file 7⟩ false 7 rfl (by decide)⟩

/-! ## FEAT parsing (`ParseFeat` / `HasFeature`)

`HasFeature` (ftpcontrolsocket.cpp:162-170) and
`CFtpControlSocket::ParseFeat` (ftpcontrolsocket.cpp:172-236), together
with the capability registry operations they use
(`CServerCapabilities::Get/SetCapability`, an external collaborator whose
entries are tri-state plus a parameter string, absent entries reading as
`unknown` with an empty parameter). -/

inductive Capability where
  | utf8_command | clnt_command | mlsd_command | mode_z_support
  | mfmt_command | mdtm_command | size_command | tvfs_support
  | rest_stream | epsv_command | timezone_offset
  deriving Repr, DecidableEq

structure CapEntry where
  state : CapState
  param : Line
  deriving Repr, DecidableEq

def Caps := Capability → CapEntry

def initialCaps : Caps := fun _ => ⟨.unknown, []⟩

def setCapability (caps : Caps) (c : Capability) (s : CapState) (param : Line) :
    Caps :=
  fun d => if d = c then ⟨s, param⟩ else caps d

/-- `fz::str_toupper_ascii`. -/
def toUpperAscii (l : Line) : Line :=
  l.map fun c => if 'a' ≤ c ∧ c ≤ 'z' then Char.ofNat (c.toNat - 32) else c

/-- Characters removed by `fz::trim` (space, CR, LF, tab). -/
def isTrimChar (c : Char) : Bool :=
  c == ' ' || c == '\r' || c == '\n' || c == '\t'

/-- `fz::trim`. -/
def trimChars (l : Line) : Line :=
  ((l.dropWhile isTrimChar).reverse.dropWhile isTrimChar).reverse

/-- `HasFeature` (ftpcontrolsocket.cpp:162-170). -/
def hasFeature (line feature : Line) : Bool :=
  line == feature ||
    (decide (feature.length < line.length) &&
     line.take feature.length == feature &&
     line.get? feature.length == some ' ')

/-- `CFtpControlSocket::ParseFeat` (ftpcontrolsocket.cpp:172-236). -/
def parseFeat (caps : Caps) (rawLine : Line) : Caps :=
  let line := trimChars rawLine
  let up := toUpperAscii line
  if hasFeature up ("UTF8".toList) then
    setCapability caps .utf8_command .yes []
  else if hasFeature up ("CLNT".toList) then
    setCapability caps .clnt_command .yes []
  else if hasFeature up ("MLSD".toList) then
    let cur := caps .mlsd_command
    let facts :=
      if cur.state ≠ CapState.yes ∨ cur.param = [] then
        (if 5 < line.length then line.drop 5 else [])
      else cur.param
    setCapability (setCapability caps .mlsd_command .yes facts)
      .timezone_offset .no []
  else if hasFeature up ("MLST".toList) then
    let facts := if 5 < line.length then line.drop 5 else []
    let facts :=
      if facts = [] then
        (if (caps .mlsd_command).state = CapState.yes
         then (caps .mlsd_command).param else [])
      else facts
    setCapability (setCapability caps .mlsd_command .yes facts)
      .timezone_offset .no []
  else if hasFeature up ("MODE Z".toList) then
    setCapability caps .mode_z_support .yes []
  else if hasFeature up ("MFMT".toList) then
    setCapability caps .mfmt_command .yes []
  else if hasFeature up ("MDTM".toList) then
    setCapability caps .mdtm_command .yes []
  else if hasFeature up ("SIZE".toList) then
    setCapability caps .size_command .yes []
  else if hasFeature up ("TVFS".toList) then
    setCapability caps .tvfs_support .yes []
  else if hasFeature up ("REST STREAM".toList) then
    setCapability caps .rest_stream .yes []
  else if hasFeature up ("EPSV".toList) then
    setCapability caps .epsv_command .yes []
  else caps

/-- **C8** FEAT parsing of MLSD/MLST.  A feature keyword matches exactly
when the (upper-cased, trimmed) line is the keyword itself or the keyword
followed by a space and arbitrary verbatim text; and after parsing the FEAT
lines `" MLSD type*;size*;modify*;"` and `" MLST type*;size*;modify*;"` the
`mlsd_command` capability is `yes` with parameter `type*;size*;modify*;`
(the MLST facts overriding the MLSD ones) and `timezone_offset` is `no`;
keyword matching is case-insensitive while the parameter keeps its
original case. -/
theorem c8_feat_mlsd_mlst :
    (∀ line feat : Line,
        hasFeature line feat = true ↔
          (line = feat ∨ ∃ rest, line = feat ++ ' ' :: rest)) ∧
    ((parseFeat (parseFeat initialCaps (" MLSD type*;size*;modify*;".toList))
        (" MLST type*;size*;modify*;".toList)) .mlsd_command =
      ⟨.yes, "type*;size*;modify*;".toList⟩) ∧
    ((parseFeat (parseFeat initialCaps (" MLSD type*;size*;modify*;".toList))
        (" MLST type*;size*;modify*;".toList)) .timezone_offset =
      ⟨.no, []⟩) ∧
    ((parseFeat initialCaps (" mlsd Type*;".toList)) .mlsd_command =
      ⟨.yes, "Type*;".toList⟩) := by
  refine ⟨?_, by decide, by decide, by decide⟩
  intro line feat
  unfold hasFeature
  simp only [Bool.or_eq_true, Bool.and_eq_true, beq_iff_eq, decide_eq_true_eq]
  constructor
  · rintro (h | ⟨⟨hlen, htake⟩, hget⟩)
    · exact Or.inl h
    · refine Or.inr ⟨line.drop (feat.length + 1), ?_⟩
      conv_lhs => rw [← List.take_append_drop feat.length line]
      rw [htake, List.drop_eq_get_cons (by omega)]
      congr 1
      have := List.get?_eq_get (show feat.length < line.length by omega)
      rw [this] at hget
      simp only [Option.some.injEq] at hget
      rw [hget]
  · rintro (h | ⟨rest, hrest⟩)
    · exact Or.inl h
    · subst hrest
      refine Or.inr ⟨⟨by simp only [List.length_append, List.length_cons]; omega, ?_⟩, ?_⟩
      · exact List.take_left feat (' ' :: rest)
      · rw [List.get?_append_right (le_refl _)]
        simp

/-! ## File-transfer entry: empty local file name

The guard at the top of `CFtpControlSocket::FileTransfer`
(ftpcontrolsocket.cpp:611-659). -/

structure SessionState where
  pendingReplies : Nat
  repliesToSkip : Nat
  /-- Number of op-data frames on the operation stack. -/
  opStackDepth : Nat
  /-- Commands sent on the control connection so far. -/
  sentCommands : List Line
  deriving Repr, DecidableEq

/-- The in-source session effect of `CFtpControlSocket::ResetOperation`
when no op frame belongs to the failing call: the counter assignment
`m_repliesToSkip = m_pendingReplies` (ftpcontrolsocket.cpp:479).  Nothing
is sent and no frame of this call exists to pop. -/
def resetOperationSession (st : SessionState) : SessionState :=
  { st with repliesToSkip := st.pendingReplies }

structure FileTransferCallResult where
  state : SessionState
  /-- Argument of the `ResetOperation` call, if one was made. -/
  resetCode : Option Nat
  /-- The function's return value. -/
  returned : Nat
  deriving Repr, DecidableEq

/-- Entry of `CFtpControlSocket::FileTransfer`
(ftpcontrolsocket.cpp:611-659).  With an empty local file name it calls
`ResetOperation` with the download-dependent error code and returns
`FZ_REPLY_ERROR` before any `Push` or `SendCommand`; otherwise it pushes
the file-transfer frame and the change-directory sub-operation's frame and
returns `FZ_REPLY_CONTINUE`. -/
def fileTransferEntry (st : SessionState) (localFile : Line)
    (download : Bool) : FileTransferCallResult :=
  if localFile = [] then
    { state := resetOperationSession st,
      resetCode := some (if download then FZ_REPLY_SYNTAXERROR
        else FZ_REPLY_CRITICALERROR ||| FZ_REPLY_NOTSUPPORTED),
      returned := FZ_REPLY_ERROR }
  else
    { state := { st with opStackDepth := st.opStackDepth + 2 },
      resetCode := none,
      returned := FZ_REPLY_CONTINUE }

/-- **C10, counterexample.**  With one reply outstanding, a file-transfer
call with an empty local file name does change the session state: the
cleanup sets `repliesToSkip` to `pendingReplies`. -/
theorem c10_empty_name_state_change :
    (fileTransferEntry ⟨1, 0, 0, []⟩ [] true).state ≠ ⟨1, 0, 0, []⟩ := by
  decide

/-- **C10 (amended).**  A file-transfer call with an empty local file name
fails immediately without pushing an op frame or sending any command: an
upload fails with `CRITICAL | NOTSUPPORTED` and a download with a `SYNTAX`
error; the cleanup path sets `repliesToSkip` to `pendingReplies` and leaves
everything else unchanged (so the session state is unchanged precisely
when no replies are outstanding). -/
theorem c10_empty_local_file (st : SessionState) (download : Bool) :
    (fileTransferEntry st [] download).resetCode =
      some (if download then FZ_REPLY_SYNTAXERROR
        else FZ_REPLY_CRITICALERROR ||| FZ_REPLY_NOTSUPPORTED) ∧
    (fileTransferEntry st [] download).returned = FZ_REPLY_ERROR ∧
    (fileTransferEntry st [] download).state.opStackDepth = st.opStackDepth ∧
    (fileTransferEntry st [] download).state.sentCommands = st.sentCommands ∧
    (fileTransferEntry st [] download).state.pendingReplies = st.pendingReplies ∧
    (fileTransferEntry st [] download).state.repliesToSkip = st.pendingReplies := by
  simp [fileTransferEntry, resetOperationSession]

end FtpEngine
